import Mathlib

/-!
Verification development for the streaming voice-conversion core of the
repository (RVC/RVCr2.py and RVC/pipeline/PipelineGenerator.py).

The Python code is shallowly embedded:
* numpy float arrays become `List ℚ` (exact rational arithmetic in place of
  IEEE floats; all claims under study are about exact sample accounting,
  branch structure and state updates, not float rounding),
* numpy 2-d feature arrays become `List (List ℚ)` (a list of rows),
* Python `None`-able buffers become `Option`s,
* Python slices `a[i:]` and `a[i:j]` (step 1, possibly negative indices)
  are embedded by `pySliceFrom` / `pySlice` with Python's clamping rules,
* the external collaborators (resampler, neural pipeline `exec`,
  inferencer/embedder/index loading) are oracles: their one result for the
  call under study is passed in as an explicit argument, exactly as the
  spec treats them ("black-box exec").

The code's `vol = np.sqrt(np.square(crop).mean())` is real-valued; the
embedding carries the square of the volume (`volSq`, a rational) through
the state and applies `Real.sqrt` in theorem statements only, so that all
definitions stay executable.  `gateSilent` is the code's comparison
`vol < threshold` rewritten at the square level; the lemma
`gateSilent_iff_sqrt` proves the rewriting faithful.
-/

/-- Python's index normalisation for a slice endpoint on a list of length
`len`: a nonnegative index is clamped to `len`, a negative index `k` means
`len + k`, clamped below at `0`.  (`ℕ` subtraction already clamps.) -/
def pyIdx (len : ℕ) (k : ℤ) : ℕ :=
  if 0 ≤ k then min k.toNat len else len - (-k).toNat

/-- Python `l[i:]` (step 1). -/
def pySliceFrom (l : List α) (i : ℤ) : List α :=
  l.drop (pyIdx l.length i)

/-- Python `l[i:j]` (step 1). -/
def pySlice (l : List α) (i j : ℤ) : List α :=
  (l.take (pyIdx l.length j)).drop (pyIdx l.length i)

/-- The last `k` elements of a list (used to phrase spec-side windows
"ending at the end of the buffer"). -/
def takeLast (k : ℕ) (l : List α) : List α :=
  l.drop (l.length - k)

/-- Python `int(q)` on a real number: truncation toward zero. -/
def pyIntQ (q : ℚ) : ℤ :=
  q.num.tdiv q.den

/-- `np.square(l).mean()`: the mean of the squares.  (For an empty list
Python produces NaN; the embedding returns `0` — the only call site with a
possibly-empty window is the crop with `crossfadeSize = 0`, and every
theorem touching the volume either avoids or flags that corner.) -/
def meanSq (l : List ℚ) : ℚ :=
  (l.map (fun x => x ^ 2)).sum / (l.length : ℚ)

/-- Model slot metadata used by RVCr2 (utils/ModelSlot.py is not part of
the snapshot; the fields are exactly those RVCr2.py reads: `f0`,
`embChannels`, `samplingRate`, `defaultTune`, `defaultIndexRatio`,
`defaultProtect`). -/
structure RVCModelSlot where
  f0 : Bool := true
  embChannels : ℕ := 256
  samplingRate : ℕ := 40000
  defaultTune : ℤ := 0
  defaultIndexRatio : ℚ := 1
  defaultProtect : ℚ := 1/2
deriving DecidableEq

/-- Modelled from the spec: RVC/RVCSettings.py is not in the snapshot.
Spec section 6 lists the recognized configuration keys: integer-valued
gpu / pitch-shift (tran) / quality-repeat (rvcQuality), float-valued
indexRatio / protect / silentThreshold / extraConvertSize, string-valued
f0Detector.  `dstId` and `silenceFront` are read by RVCr2.inference and
are modelled as plain fields (not in the recognized-key lists). -/
structure RVCSettings where
  gpu : ℤ := 0
  dstId : ℤ := 0
  tran : ℤ := 0
  rvcQuality : ℤ := 0
  silenceFront : ℤ := 1
  indexRatio : ℚ := 0
  protect : ℚ := 1/2
  silentThreshold : ℚ := 0
  extraConvertSize : ℚ := 0
  f0Detector : String := "harvest"
deriving DecidableEq

/-- Modelled from the spec: the recognized integer-valued keys
(`RVCSettings.intData`). -/
def intData : List String := ["gpu", "tran", "rvcQuality"]

/-- Modelled from the spec: the recognized float-valued keys
(`RVCSettings.floatData`). -/
def floatData : List String :=
  ["indexRatio", "protect", "silentThreshold", "extraConvertSize"]

/-- Modelled from the spec: the recognized string-valued keys
(`RVCSettings.strData`). -/
def strData : List String := ["f0Detector"]

/-- The assembled pipeline object (RVC/pipeline/Pipeline.py constructor
arguments, in order).  Embedder / inferencer / index objects are opaque
and represented by numeric identities. -/
structure Pipeline where
  embedder : ℕ
  inferencer : ℕ
  pitchExtractor : String
  index : Option ℕ
  samplingRate : ℕ
  dev : ℕ
  isHalf : Bool
deriving DecidableEq

/-- utils/Exceptions.py `PipelineCreateException` carrying its message. -/
structure PipelineCreateException where
  msg : String
deriving DecidableEq

/-- The error RVCr2.inference itself can raise
(`PipelineNotInitializedException`).  The external pipeline's
`DeviceCannotSupportHalfPrecisionException` is caught inside `inference`
and never escapes; it is the (sole) error case of the exec oracle. -/
inductive InferenceError
  | pipelineNotInitialized
deriving DecidableEq

/-- The value argument of `update_settings` (`val: int | float | str`). -/
inductive SettingVal
  | i (n : ℤ)
  | f (q : ℚ)
  | s (str : String)
deriving DecidableEq

/-- Digit-string accumulator for the numeric-literal parsers. -/
def parseNatCore : List Char → ℕ → Option ℕ
  | [], acc => some acc
  | c :: cs, acc =>
    if c.isDigit then parseNatCore cs (acc * 10 + (c.toNat - 48)) else none

/-- Python `int(s)` on a string: an optional sign followed by digits, else
`ValueError` (`none`).  (Whitespace tolerance and underscore separators of
CPython are not modelled; no claim depends on them.) -/
def pyParseInt (s : String) : Option ℤ :=
  match s.toList with
  | [] => none
  | '-' :: rest =>
    if rest.isEmpty then none else (parseNatCore rest 0).map (fun n => -(n : ℤ))
  | l => (parseNatCore l 0).map (fun n => (n : ℤ))

/-- Mantissa parser for `pyParseFloat`: digits with at most one dot. -/
def parseFloatCore : List Char → ℕ → Option ℚ
  | [], acc => some (acc : ℚ)
  | '.' :: rest, acc =>
    (parseNatCore rest 0).map
      (fun frac => (acc : ℚ) + (frac : ℚ) / ((10 : ℚ) ^ rest.length))
  | c :: cs, acc =>
    if c.isDigit then parseFloatCore cs (acc * 10 + (c.toNat - 48)) else none

/-- Python `float(s)` on a string: optional sign, digits, optional
fractional part, else `ValueError` (`none`).  (Exponent notation and other
exotic literals are not modelled; no claim depends on them.) -/
def pyParseFloat (s : String) : Option ℚ :=
  match s.toList with
  | [] => none
  | '-' :: rest =>
    if rest.isEmpty then none else (parseFloatCore rest 0).map Neg.neg
  | l => parseFloatCore l 0

/-- Python `int(val)` for `val: int | float | str`; `none` is a raised
`ValueError`. -/
def pyToInt : SettingVal → Option ℤ
  | .i n => some n
  | .f q => some (pyIntQ q)
  | .s s => pyParseInt s

/-- Python `float(val)`; `none` is a raised `ValueError`. -/
def pyToFloat : SettingVal → Option ℚ
  | .i n => some (n : ℚ)
  | .f q => some q
  | .s s => pyParseFloat s

/-- Python `str(val)` (total). -/
def pyToStr : SettingVal → String
  | .i n => toString n
  | .f q => toString q
  | .s s => s

/-- The mutable state of an `RVCr2` instance (RVC/RVCr2.py), plus the
device manager's force-full-precision flag (`DeviceManager.setForceTensor`
state) and `pipelineGen`, a ghost allocation counter that increases each
time a new `Pipeline` object is constructed — it models Python object
identity, letting theorems distinguish "the handle was rebuilt" from "the
existing handle was mutated in place". -/
structure RVCState where
  slotInfo : RVCModelSlot
  settings : RVCSettings
  pipeline : Option Pipeline
  pipelineGen : ℕ
  forceTensor : Bool
  audio_buffer : Option (List ℚ)
  pitchf_buffer : Option (List ℚ)
  feature_buffer : Option (List (List ℚ))
  prevVolSq : ℚ
  inputSampleRate : ℕ
  outputSampleRate : ℕ
deriving DecidableEq

/-- RVCr2.generate_input lines 150-155: the window size
`inputSize + crossfadeSize + solaSearchFrame + extra_frame`, rounded up to
the next multiple of 160 (the model's hop size) when not already one. -/
def convertSizeOf (inputSize crossfadeSize solaSearchFrame extra_frame : ℕ) : ℕ :=
  if (inputSize + crossfadeSize + solaSearchFrame + extra_frame) % 160 ≠ 0 then
    (inputSize + crossfadeSize + solaSearchFrame + extra_frame) +
      (160 - (inputSize + crossfadeSize + solaSearchFrame + extra_frame) % 160)
  else inputSize + crossfadeSize + solaSearchFrame + extra_frame

/-- RVCr2.generate_input lines 156-158:
`outSize = int(((convertSize - extra_frame) / 16000) * samplingRate)`.
Python `int` truncates toward zero (`pyIntQ`); the value is nonnegative
because `convertSize ≥ extra_frame`, so `toNat` is lossless. -/
def outSizeOf (convertSize extra_frame samplingRate : ℕ) : ℕ :=
  (pyIntQ ((((convertSize : ℚ) - (extra_frame : ℚ)) / 16000) * (samplingRate : ℚ))).toNat

/-- RVCr2.generate_input lines 128-148, audio part: concatenate onto the
history, or start the history when the buffer is still `None`. -/
def appendAudio (st : RVCState) (newData : List ℚ) : List ℚ :=
  match st.audio_buffer with
  | some a => a ++ newData
  | none => newData

/-- RVCr2.generate_input lines 131-134 and 144-145, pitch part: extend (or
create) the pitch history by `newFeatureLength` zeros when the model uses
pitch.  (When `audio_buffer` is set but `pitchf_buffer` is `None` with
`f0 = true` — a state unreachable from a fresh instance — the Python code
would crash in `np.concatenate`; `Option.map` leaves `none`, and every
theorem works from reachable states.) -/
def appendPitchf (st : RVCState) (newFeatureLength : ℕ) : Option (List ℚ) :=
  match st.audio_buffer with
  | some _ =>
    if st.slotInfo.f0 then
      st.pitchf_buffer.map (fun p => p ++ List.replicate newFeatureLength 0)
    else st.pitchf_buffer
  | none =>
    if st.slotInfo.f0 then some (List.replicate newFeatureLength 0)
    else st.pitchf_buffer

/-- RVCr2.generate_input lines 135-141 and 146-148, feature part: extend
(or create) the feature history by `newFeatureLength` zero rows of width
`embChannels`. -/
def appendFeature (st : RVCState) (newFeatureLength : ℕ) : Option (List (List ℚ)) :=
  match st.audio_buffer with
  | some _ =>
    st.feature_buffer.map
      (fun f => f ++ List.replicate newFeatureLength (List.replicate st.slotInfo.embChannels (0 : ℚ)))
  | none =>
    some (List.replicate newFeatureLength (List.replicate st.slotInfo.embChannels (0 : ℚ)))

/-- The result of RVCr2.generate_input: the updated instance state plus
the returned tuple `(audio, pitchf, feature, convertSize, vol, outSize)`.
The returned buffer views are the state's buffers (numpy views).  `volSq`
is the square of the code's `vol`; see the file header. -/
structure GenResult where
  st : RVCState
  audio : List ℚ
  pitchf : Option (List ℚ)
  feature : Option (List (List ℚ))
  convertSize : ℕ
  volSq : ℚ
  outSize : ℕ
deriving DecidableEq

/-- RVCr2.generate_input (lines 116-201).  `newData` arrives at 16 kHz in
int16 scale and is normalised by `/ 32768`; the histories are extended,
left-zero-padded to the window when short, right-anchored to the window,
and the gate volume is computed over `audio[-(inputSize+crossfadeSize):-crossfadeSize]`.
`vol = max(rms, prevVol * 0.0)` is carried at the square level:
`volSq = max(meanSq crop, prevVolSq * 0)`, which commutes with `sqrt`. -/
def generate_input (newData : List ℚ) (crossfadeSize solaSearchFrame extra_frame : ℕ)
    (st : RVCState) : GenResult :=
  let inputSize := newData.length
  let newData2 := newData.map (fun x => x / 32768)
  let newFeatureLength := inputSize / 160
  let audio1 := appendAudio st newData2
  let pitchf1 := appendPitchf st newFeatureLength
  let feature1 := appendFeature st newFeatureLength
  let convertSize := convertSizeOf inputSize crossfadeSize solaSearchFrame extra_frame
  let outSize := outSizeOf convertSize extra_frame st.slotInfo.samplingRate
  let audio2 :=
    if audio1.length < convertSize then List.replicate convertSize (0 : ℚ) ++ audio1
    else audio1
  let pitchf2 :=
    if audio1.length < convertSize then
      (if st.slotInfo.f0 then
        pitchf1.map (fun p => List.replicate (convertSize / 160) (0 : ℚ) ++ p)
      else pitchf1)
    else pitchf1
  let feature2 :=
    if audio1.length < convertSize then
      feature1.map
        (fun f => List.replicate (convertSize / 160) (List.replicate st.slotInfo.embChannels (0 : ℚ)) ++ f)
    else feature1
  let convertOffset : ℤ := -(convertSize : ℤ)
  let featureOffset : ℤ := Int.fdiv convertOffset 160
  let audio3 := pySliceFrom audio2 convertOffset
  let pitchf3 :=
    if st.slotInfo.f0 then pitchf2.map (fun p => pySliceFrom p featureOffset)
    else pitchf2
  let feature3 := feature2.map (fun f => pySliceFrom f featureOffset)
  let crop := pySlice audio3 (-((inputSize : ℤ) + (crossfadeSize : ℤ))) (-(crossfadeSize : ℤ))
  let volSq := max (meanSq crop) (st.prevVolSq * 0)
  { st := { st with
      audio_buffer := some audio3
      pitchf_buffer := pitchf3
      feature_buffer := feature3
      prevVolSq := volSq }
    audio := audio3
    pitchf := pitchf3
    feature := feature3
    convertSize := convertSize
    volSq := volSq
    outSize := outSize }

/-- The code's silence test `vol < self.settings.silentThreshold`
(RVCr2.py line 242) expressed at the square level: for the real-valued
`vol = sqrt volSq` with `volSq ≥ 0`, `vol < t ↔ 0 < t ∧ volSq < t²`
(lemma `gateSilent_iff_sqrt`). -/
def gateSilent (volSq threshold : ℚ) : Bool :=
  decide (0 < threshold) && decide (volSq < threshold ^ 2)

/-- RVC/pipeline/PipelineGenerator.py `_loadIndex` (lines 61-77): `None`
when the file does not exist or is not a regular file, `None` again when
`faiss.read_index` raises, otherwise the loaded index.  The two `os.path`
probes and the read outcome are oracle arguments. -/
def loadIndex (indexExists indexIsFile : Bool) (readIndexResult : Except String ℕ) : Option ℕ :=
  if !indexExists || !indexIsFile then none
  else
    match readIndexResult with
    | .error _ => none
    | .ok idx => some idx

/-- RVC/pipeline/PipelineGenerator.py `createPipeline` (lines 15-58).  The
loader outcomes (`InferencerManager.getInferencer`,
`EmbedderManager.getEmbedder`, `PitchExtractorManager.getPitchExtractor`,
the index-file probes and `faiss.read_index`) are oracle arguments; a
loader failure becomes a raised `PipelineCreateException` with the code's
message, in code order (inferencer first, then embedder). -/
def createPipeline (getInferencerResult : Except String ℕ)
    (getEmbedderResult : Except String ℕ) (pitchExtractor : String)
    (indexExists indexIsFile : Bool) (readIndexResult : Except String ℕ)
    (dev : ℕ) (half : Bool) (modelSamplingRate : ℕ) :
    Except PipelineCreateException Pipeline :=
  match getInferencerResult with
  | .error _ => .error ⟨"[Voice Changer] exception! loading inferencer"⟩
  | .ok inferencer =>
    match getEmbedderResult with
    | .error _ => .error ⟨"[Voice Changer] exception! loading embedder"⟩
    | .ok embedder =>
      .ok { embedder := embedder, inferencer := inferencer,
            pitchExtractor := pitchExtractor,
            index := loadIndex indexExists indexIsFile readIndexResult,
            samplingRate := modelSamplingRate, dev := dev, isHalf := half }

/-- RVCr2.initialize (lines 55-77): try to build the pipeline; on
`PipelineCreateException` log and return with the old state intact; on
success install the new handle (ghost generation bumped — a fresh Python
object) and reset `tran`, `indexRatio`, `protect` to the slot defaults.
The `createPipeline` outcome is the oracle argument. -/
def initializeModel (createResult : Except PipelineCreateException Pipeline)
    (st : RVCState) : RVCState :=
  match createResult with
  | .error _ => st
  | .ok p =>
    { st with
      pipeline := some p
      pipelineGen := st.pipelineGen + 1
      settings := { st.settings with
        tran := st.slotInfo.defaultTune
        indexRatio := st.slotInfo.defaultIndexRatio
        protect := st.slotInfo.defaultProtect } }

/-- RVCr2.update_settings (lines 84-102).  `int(val)` / `float(val)` can
raise `ValueError` (the `.error` result); a `gpu` update clears the
force-tensor flag and re-runs initialize (whose `createPipeline` outcome
is the oracle argument `createResult`); an `f0Detector` update swaps the
pitch extractor on the *existing* pipeline object; an unrecognized key
returns `false` with the state untouched. -/
def update_settings (createResult : Except PipelineCreateException Pipeline)
    (key : String) (val : SettingVal) (st : RVCState) :
    Except Unit (Bool × RVCState) :=
  if key ∈ intData then
    match pyToInt val with
    | none => .error ()
    | some n =>
      let s := st.settings
      let s1 : RVCSettings :=
        if key = "gpu" then { s with gpu := n }
        else if key = "tran" then { s with tran := n }
        else { s with rvcQuality := n }
      let st1 := { st with settings := s1 }
      if key = "gpu" then
        .ok (true, initializeModel createResult { st1 with forceTensor := false })
      else .ok (true, st1)
  else if key ∈ floatData then
    match pyToFloat val with
    | none => .error ()
    | some q =>
      let s := st.settings
      let s1 : RVCSettings :=
        if key = "indexRatio" then { s with indexRatio := q }
        else if key = "protect" then { s with protect := q }
        else if key = "silentThreshold" then { s with silentThreshold := q }
        else { s with extraConvertSize := q }
      .ok (true, { st with settings := s1 })
  else if key ∈ strData then
    let s1 := { st.settings with f0Detector := pyToStr val }
    let st1 := { st with settings := s1 }
    if key = "f0Detector" then
      match st1.pipeline with
      | some p =>
        .ok (true, { st1 with pipeline := some { p with pitchExtractor := s1.f0Detector } })
      | none => .ok (true, st1)
    else .ok (true, st1)
  else .ok (false, st)

/-- The output chunk of RVCr2.inference.  The code's emitted samples are
scaled elementwise by `sqrt vol`; the embedding keeps the pre-scale
samples together with `volSqScale` (= `volSq`, whose square root is the
scale).  In the gated-silent branch the samples are already the exact
zeros `np.zeros(convertSize)` (zero times any scale is zero). -/
structure InferOut where
  volSqScale : ℚ
  samples : List ℚ
deriving DecidableEq

/-- The one generate_input call RVCr2.inference makes (lines 214-233):
the chunk is resampled to 16 kHz and the crossfade / SOLA-search margins
and the configured extra-context duration are each rescaled from the
input rate into 16 kHz sample units (`int((x / inputRate) * 16000)`). -/
def genOfInference (resample : List ℚ → ℕ → ℕ → List ℚ) (st : RVCState)
    (receivedData : List ℚ) (crossfade_frame sola_search_frame : ℕ) : GenResult :=
  generate_input (resample receivedData st.inputSampleRate 16000)
    (crossfade_frame * 16000 / st.inputSampleRate)
    (sola_search_frame * 16000 / st.inputSampleRate)
    ((pyIntQ ((st.settings.extraConvertSize / (st.inputSampleRate : ℚ)) * 16000)).toNat) st

/-- RVCr2.inference (lines 203-302).  Oracles: `resample` (resampy),
`execResult` (the external pipeline's one `exec` outcome for this call —
`.error ()` is the raised `DeviceCannotSupportHalfPrecisionException`),
and `createResult` (the `createPipeline` outcome should the recovery path
re-run initialize).  Returns the produced chunk (`none` when the call
produces no output, Python `return` with no value) and the new state;
`.error` is the raised `PipelineNotInitializedException`.
The non-silent success path applies the `sqrt vol` scale before the
output-rate resample in the code; the embedding resamples the unscaled
samples and carries the scale in `volSqScale` (no claim concerns the
sample values of that path). -/
def inference (resample : List ℚ → ℕ → ℕ → List ℚ)
    (execResult : Except Unit (List ℚ × List ℚ × List (List ℚ)))
    (createResult : Except PipelineCreateException Pipeline)
    (st : RVCState) (receivedData : List ℚ)
    (crossfade_frame sola_search_frame : ℕ) :
    Except InferenceError (Option InferOut × RVCState) :=
  match st.pipeline with
  | none => .error .pipelineNotInitialized
  | some _ =>
    let r := genOfInference resample st receivedData crossfade_frame sola_search_frame
    if gateSilent r.volSq st.settings.silentThreshold then
      .ok (some { volSqScale := r.volSq, samples := List.replicate r.convertSize 0 }, r.st)
    else
      match execResult with
      | .ok (audio_out, pitchfTail, featureTail) =>
        let st2 := { r.st with
          pitchf_buffer := some pitchfTail
          feature_buffer := some featureTail }
        let result :=
          resample (pySliceFrom audio_out (-(r.outSize : ℤ)))
            st.slotInfo.samplingRate st.outputSampleRate
        .ok (some { volSqScale := r.volSq, samples := result }, st2)
      | .error _ =>
        .ok (none, initializeModel createResult { r.st with forceTensor := true })

/-- One generate_input call of a chunk sequence (C1's "sequence of
appended chunks"): the 16 kHz chunk plus the per-call window margins. -/
structure GenCall where
  newData : List ℚ
  crossfadeSize : ℕ
  solaSearchFrame : ℕ
  extra : ℕ

/-- Apply one call's state effect. -/
def applyGen (c : GenCall) (st : RVCState) : RVCState :=
  (generate_input c.newData c.crossfadeSize c.solaSearchFrame c.extra st).st

/-- Run a sequence of generate_input calls. -/
def runGen (cs : List GenCall) (st : RVCState) : RVCState :=
  cs.foldl (fun s c => applyGen c s) st

/-- The total window contribution of one call; `convertSizeOf` of a call
is zero exactly when this is zero. -/
def callSize (c : GenCall) : ℕ :=
  c.newData.length + c.crossfadeSize + c.solaSearchFrame + c.extra

lemma convertSizeOf_mod (a b c d : ℕ) : convertSizeOf a b c d % 160 = 0 := by
  unfold convertSizeOf
  split <;> omega

lemma le_convertSizeOf (a b c d : ℕ) : a + b + c + d ≤ convertSizeOf a b c d := by
  unfold convertSizeOf
  split <;> omega

lemma convertSizeOf_lt (a b c d : ℕ) : convertSizeOf a b c d < a + b + c + d + 160 := by
  unfold convertSizeOf
  split <;> omega

lemma convertSizeOf_eq_roundup (a b c d : ℕ) :
    convertSizeOf a b c d = 160 * ((a + b + c + d + 159) / 160) := by
  unfold convertSizeOf
  split <;> omega

lemma convertSizeOf_pos (a b c d : ℕ) (h : 0 < a + b + c + d) :
    0 < convertSizeOf a b c d := lt_of_lt_of_le h (le_convertSizeOf a b c d)

lemma convertSizeOf_zero : convertSizeOf 0 0 0 0 = 0 := rfl

lemma pyIdx_neg (len C : ℕ) (h : 0 < C) : pyIdx len (-(C : ℤ)) = len - C := by
  unfold pyIdx
  rw [if_neg (by omega)]
  simp

lemma pyIdx_zero (len : ℕ) : pyIdx len 0 = 0 := by
  unfold pyIdx
  simp

lemma length_pySliceFrom_neg (l : List α) (C : ℕ) (h : 0 < C) :
    (pySliceFrom l (-(C : ℤ))).length = l.length - (l.length - C) := by
  unfold pySliceFrom
  rw [pyIdx_neg _ _ h, List.length_drop]

lemma pySliceFrom_zero (l : List α) : pySliceFrom l 0 = l := by
  unfold pySliceFrom
  rw [pyIdx_zero]
  rfl

lemma neg_fdiv_160 (C : ℕ) (hmod : C % 160 = 0) :
    Int.fdiv (-(C : ℤ)) 160 = -((C / 160 : ℕ) : ℤ) := by
  obtain ⟨k, rfl⟩ : ∃ k, C = 160 * k := ⟨C / 160, by omega⟩
  rw [Nat.mul_div_cancel_left _ (by norm_num)]
  push_cast
  rw [show -((160 : ℤ) * k) = 160 * (-(k : ℤ)) by ring, Int.mul_fdiv_cancel_left _ (by norm_num)]

lemma meanSq_nonneg (l : List ℚ) : 0 ≤ meanSq l := by
  unfold meanSq
  apply div_nonneg _ (by positivity)
  apply List.sum_nonneg
  intro x hx
  obtain ⟨y, _, rfl⟩ := List.mem_map.mp hx
  positivity

lemma meanSq_replicate_zero (n : ℕ) : meanSq (List.replicate n 0) = 0 := by
  unfold meanSq
  simp

lemma pyIntQ_eq_floor (q : ℚ) (h : 0 ≤ q) : pyIntQ q = ⌊q⌋ := by
  unfold pyIntQ
  rw [Rat.floor_def, Int.tdiv_eq_ediv (by exact_mod_cast Rat.num_nonneg.mpr h) (by positivity)]

lemma outSizeOf_eq_div (C e sr : ℕ) (h : e ≤ C) :
    outSizeOf C e sr = (C - e) * sr / 16000 := by
  unfold outSizeOf
  have hq : (((C : ℚ) - (e : ℚ)) / 16000) * (sr : ℚ) = (((C - e) * sr : ℕ) : ℚ) / ((16000 : ℕ) : ℚ) := by
    rw [Nat.cast_mul, Nat.cast_sub h]
    push_cast
    ring
  rw [hq, pyIntQ_eq_floor _ (by positivity)]
  rw [Int.floor_toNat, Nat.floor_div_nat, Nat.floor_natCast]

lemma outSizeOf_eq_floor (C e sr : ℕ) (h : e ≤ C) :
    outSizeOf C e sr = ⌊(((C : ℚ) - (e : ℚ)) / 16000) * (sr : ℚ)⌋₊ := by
  rw [outSizeOf_eq_div C e sr h]
  have hq : (((C : ℚ) - (e : ℚ)) / 16000) * (sr : ℚ) = (((C - e) * sr : ℕ) : ℚ) / ((16000 : ℕ) : ℚ) := by
    rw [Nat.cast_mul, Nat.cast_sub h]
    push_cast
    ring
  rw [hq, Nat.floor_div_nat, Nat.floor_natCast]

lemma gateSilent_iff_sqrt (m t : ℚ) :
    gateSilent m t = true ↔ Real.sqrt (m : ℝ) < (t : ℝ) := by
  unfold gateSilent
  rw [Bool.and_eq_true, decide_eq_true_eq, decide_eq_true_eq]
  constructor
  · rintro ⟨h1, h2⟩
    have h1R : (0 : ℝ) < (t : ℝ) := by exact_mod_cast h1
    rw [Real.sqrt_lt' h1R]
    exact_mod_cast h2
  · intro h
    have h1R : (0 : ℝ) < (t : ℝ) := lt_of_le_of_lt (Real.sqrt_nonneg _) h
    refine ⟨by exact_mod_cast h1R, ?_⟩
    have := (Real.sqrt_lt' h1R).mp h
    exact_mod_cast this

lemma generate_input_convertSize (nd : List ℚ) (cf so ex : ℕ) (st : RVCState) :
    (generate_input nd cf so ex st).convertSize = convertSizeOf nd.length cf so ex := rfl

lemma generate_input_outSize (nd : List ℚ) (cf so ex : ℕ) (st : RVCState) :
    (generate_input nd cf so ex st).outSize =
      outSizeOf (convertSizeOf nd.length cf so ex) ex st.slotInfo.samplingRate := rfl

lemma generate_input_audio_buffer (nd : List ℚ) (cf so ex : ℕ) (st : RVCState) :
    (generate_input nd cf so ex st).st.audio_buffer =
      some (generate_input nd cf so ex st).audio := rfl

lemma generate_input_pitchf_buffer (nd : List ℚ) (cf so ex : ℕ) (st : RVCState) :
    (generate_input nd cf so ex st).st.pitchf_buffer =
      (generate_input nd cf so ex st).pitchf := rfl

lemma generate_input_feature_buffer (nd : List ℚ) (cf so ex : ℕ) (st : RVCState) :
    (generate_input nd cf so ex st).st.feature_buffer =
      (generate_input nd cf so ex st).feature := rfl

lemma generate_input_slotInfo (nd : List ℚ) (cf so ex : ℕ) (st : RVCState) :
    (generate_input nd cf so ex st).st.slotInfo = st.slotInfo := rfl

lemma generate_input_volSq (nd : List ℚ) (cf so ex : ℕ) (st : RVCState) :
    (generate_input nd cf so ex st).volSq =
      max (meanSq (pySlice (generate_input nd cf so ex st).audio
            (-((nd.length : ℤ) + (cf : ℤ))) (-(cf : ℤ))))
        (st.prevVolSq * 0) := rfl

lemma generate_input_volSq_nonneg (nd : List ℚ) (cf so ex : ℕ) (st : RVCState) :
    0 ≤ (generate_input nd cf so ex st).volSq := by
  rw [generate_input_volSq]
  exact le_max_of_le_left (meanSq_nonneg _)

/-- The cross-call alignment invariant of a reachable RVCr2 state: when
the audio history exists, a feature history exists with one row per 160
audio samples, and (for pitch-conditioned models) a pitch history with one
entry per feature row. -/
def BufInv (st : RVCState) : Prop :=
  ∀ a, st.audio_buffer = some a →
    ∃ f, st.feature_buffer = some f ∧ a.length = 160 * f.length ∧
      (st.slotInfo.f0 = true →
        ∃ p, st.pitchf_buffer = some p ∧ p.length = f.length)

theorem generate_input_audio_length (nd : List ℚ) (cf so ex : ℕ) (st : RVCState)
    (hpos : 0 < nd.length + cf + so + ex) :
    (generate_input nd cf so ex st).audio.length = convertSizeOf nd.length cf so ex := by
  have hC : 0 < convertSizeOf nd.length cf so ex := convertSizeOf_pos _ _ _ _ hpos
  have h1 : (generate_input nd cf so ex st).audio =
      pySliceFrom
        (if (appendAudio st (nd.map (fun x => x / 32768))).length <
            convertSizeOf nd.length cf so ex then
          List.replicate (convertSizeOf nd.length cf so ex) (0 : ℚ) ++
            appendAudio st (nd.map (fun x => x / 32768))
        else appendAudio st (nd.map (fun x => x / 32768)))
        (-(convertSizeOf nd.length cf so ex : ℤ)) := rfl
  rw [h1]
  split_ifs with h
  · rw [length_pySliceFrom_neg _ _ hC]
    simp only [List.length_append, List.length_replicate]
    omega
  · rw [length_pySliceFrom_neg _ _ hC]
    omega

theorem generate_input_feature_length (nd : List ℚ) (cf so ex : ℕ) (st : RVCState)
    (hInv : BufInv st) (hpos : 0 < nd.length + cf + so + ex) :
    ∃ f, (generate_input nd cf so ex st).feature = some f ∧
      f.length = convertSizeOf nd.length cf so ex / 160 := by
  have hC : 0 < convertSizeOf nd.length cf so ex := convertSizeOf_pos _ _ _ _ hpos
  have hCmod := convertSizeOf_mod nd.length cf so ex
  have hK : 0 < convertSizeOf nd.length cf so ex / 160 := by omega
  have hoff : Int.fdiv (-(convertSizeOf nd.length cf so ex : ℤ)) 160 =
      -((convertSizeOf nd.length cf so ex / 160 : ℕ) : ℤ) := neg_fdiv_160 _ hCmod
  have h1 : (generate_input nd cf so ex st).feature =
      (if (appendAudio st (nd.map (fun x => x / 32768))).length <
          convertSizeOf nd.length cf so ex then
        (appendFeature st (nd.length / 160)).map
          (fun f => List.replicate (convertSizeOf nd.length cf so ex / 160)
              (List.replicate st.slotInfo.embChannels (0 : ℚ)) ++ f)
      else appendFeature st (nd.length / 160)).map
        (fun f => pySliceFrom f (Int.fdiv (-(convertSizeOf nd.length cf so ex : ℤ)) 160)) := rfl
  have hle := le_convertSizeOf nd.length cf so ex
  rcases hA : st.audio_buffer with _ | a
  · rw [h1]
    simp only [appendFeature, appendAudio, hA]
    split_ifs with h
    · refine ⟨_, rfl, ?_⟩
      rw [hoff, length_pySliceFrom_neg _ _ hK]
      simp only [List.length_append, List.length_replicate]
      omega
    · refine ⟨_, rfl, ?_⟩
      rw [hoff, length_pySliceFrom_neg _ _ hK]
      simp only [List.length_map] at h
      simp only [List.length_replicate]
      omega
  · obtain ⟨f, hf, hlen, _⟩ := hInv a hA
    rw [h1]
    simp only [appendFeature, appendAudio, hA, hf, Option.map_some']
    split_ifs with h
    · refine ⟨_, rfl, ?_⟩
      rw [hoff, length_pySliceFrom_neg _ _ hK]
      simp only [List.length_append, List.length_replicate]
      omega
    · refine ⟨_, rfl, ?_⟩
      rw [hoff, length_pySliceFrom_neg _ _ hK]
      simp only [List.length_append, List.length_map] at h
      simp only [List.length_append, List.length_replicate]
      omega

theorem generate_input_pitchf_length (nd : List ℚ) (cf so ex : ℕ) (st : RVCState)
    (hInv : BufInv st) (hpos : 0 < nd.length + cf + so + ex)
    (hf0 : st.slotInfo.f0 = true) :
    ∃ p, (generate_input nd cf so ex st).pitchf = some p ∧
      p.length = convertSizeOf nd.length cf so ex / 160 := by
  have hC : 0 < convertSizeOf nd.length cf so ex := convertSizeOf_pos _ _ _ _ hpos
  have hCmod := convertSizeOf_mod nd.length cf so ex
  have hK : 0 < convertSizeOf nd.length cf so ex / 160 := by omega
  have hoff : Int.fdiv (-(convertSizeOf nd.length cf so ex : ℤ)) 160 =
      -((convertSizeOf nd.length cf so ex / 160 : ℕ) : ℤ) := neg_fdiv_160 _ hCmod
  have h1 : (generate_input nd cf so ex st).pitchf =
      (if st.slotInfo.f0 then
        (if (appendAudio st (nd.map (fun x => x / 32768))).length <
            convertSizeOf nd.length cf so ex then
          (if st.slotInfo.f0 then
            (appendPitchf st (nd.length / 160)).map
              (fun p => List.replicate (convertSizeOf nd.length cf so ex / 160) (0 : ℚ) ++ p)
          else appendPitchf st (nd.length / 160))
        else appendPitchf st (nd.length / 160)).map
          (fun p => pySliceFrom p (Int.fdiv (-(convertSizeOf nd.length cf so ex : ℤ)) 160))
      else
        (if (appendAudio st (nd.map (fun x => x / 32768))).length <
            convertSizeOf nd.length cf so ex then
          (if st.slotInfo.f0 then
            (appendPitchf st (nd.length / 160)).map
              (fun p => List.replicate (convertSizeOf nd.length cf so ex / 160) (0 : ℚ) ++ p)
          else appendPitchf st (nd.length / 160))
        else appendPitchf st (nd.length / 160))) := rfl
  have hle := le_convertSizeOf nd.length cf so ex
  rcases hA : st.audio_buffer with _ | a
  · rw [h1]
    simp only [appendPitchf, appendAudio, hA, hf0, if_true]
    split_ifs with h
    · refine ⟨_, rfl, ?_⟩
      rw [hoff, length_pySliceFrom_neg _ _ hK]
      simp only [List.length_append, List.length_replicate]
      omega
    · refine ⟨_, rfl, ?_⟩
      rw [hoff, length_pySliceFrom_neg _ _ hK]
      simp only [List.length_map] at h
      simp only [List.length_replicate]
      omega
  · obtain ⟨f, _, hlen, hpitch⟩ := hInv a hA
    obtain ⟨p, hp, hplen⟩ := hpitch hf0
    rw [h1]
    simp only [appendPitchf, appendAudio, hA, hf0, if_true, hp, Option.map_some']
    split_ifs with h
    · refine ⟨_, rfl, ?_⟩
      rw [hoff, length_pySliceFrom_neg _ _ hK]
      simp only [List.length_append, List.length_replicate]
      omega
    · refine ⟨_, rfl, ?_⟩
      rw [hoff, length_pySliceFrom_neg _ _ hK]
      simp only [List.length_append, List.length_map] at h
      simp only [List.length_append, List.length_replicate]
      omega

theorem generate_input_bufInv (nd : List ℚ) (cf so ex : ℕ) (st : RVCState)
    (hInv : BufInv st) (hpos : 0 < nd.length + cf + so + ex) :
    BufInv (generate_input nd cf so ex st).st := by
  intro a' ha'
  have hCmod := convertSizeOf_mod nd.length cf so ex
  have ha : a' = (generate_input nd cf so ex st).audio := by
    rw [generate_input_audio_buffer] at ha'
    exact (Option.some_injective _ ha').symm
  obtain ⟨f, hf, hflen⟩ := generate_input_feature_length nd cf so ex st hInv hpos
  refine ⟨f, ?_, ?_, ?_⟩
  · rw [generate_input_feature_buffer]
    exact hf
  · rw [ha, generate_input_audio_length nd cf so ex st hpos, hflen]
    omega
  · intro hf0
    rw [generate_input_slotInfo] at hf0
    obtain ⟨p, hp, hplen⟩ := generate_input_pitchf_length nd cf so ex st hInv hpos hf0
    refine ⟨p, ?_, ?_⟩
    · rw [generate_input_pitchf_buffer]
      exact hp
    · rw [hplen, hflen]

lemma applyGen_slotInfo (c : GenCall) (st : RVCState) :
    (applyGen c st).slotInfo = st.slotInfo := rfl

lemma runGen_slotInfo (cs : List GenCall) (st : RVCState) :
    (runGen cs st).slotInfo = st.slotInfo := by
  induction cs generalizing st with
  | nil => rfl
  | cons c cs ih =>
    rw [runGen, List.foldl_cons]
    exact ih (applyGen c st)

lemma runGen_bufInv (cs : List GenCall) (st : RVCState) (hInv : BufInv st)
    (hall : ∀ c ∈ cs, 0 < callSize c) : BufInv (runGen cs st) := by
  induction cs generalizing st with
  | nil => exact hInv
  | cons c cs ih =>
    rw [runGen, List.foldl_cons]
    refine ih (applyGen c st) ?_ (fun d hd => hall d (List.mem_cons_of_mem _ hd))
    exact generate_input_bufInv _ _ _ _ st hInv (hall c (List.mem_cons_self _ _))

/-- A pitch-conditioned demo slot with one embedder channel and a 32 kHz
model rate, used by concrete instances below. -/
def demoSlot : RVCModelSlot :=
  { f0 := true
    embChannels := 1
    samplingRate := 32000
    defaultTune := 0
    defaultIndexRatio := 1
    defaultProtect := 1/2 }

/-- A freshly constructed instance state: buffers `None`, `prevVol = 0`,
no pipeline yet (RVCr2.__init__), 16 kHz in / 48 kHz out. -/
def freshState : RVCState :=
  { slotInfo := demoSlot
    settings := {}
    pipeline := none
    pipelineGen := 0
    forceTensor := false
    audio_buffer := none
    pitchf_buffer := none
    feature_buffer := none
    prevVolSq := 0
    inputSampleRate := 16000
    outputSampleRate := 48000 }

/-- A generate_input call with an empty chunk and all margins zero
computes `convertSize = 0`, whose trim `audio_buffer[-0:]` is Python
`audio_buffer[0:]` — the whole buffer, untrimmed. -/
lemma generate_input_empty_call (st : RVCState) (a : List ℚ)
    (hA : st.audio_buffer = some a) :
    (generate_input ([] : List ℚ) 0 0 0 st).audio = a := by
  have h1 : (generate_input ([] : List ℚ) 0 0 0 st).audio =
      pySliceFrom
        (if (appendAudio st ([] : List ℚ)).length < 0 then
          List.replicate 0 (0 : ℚ) ++ appendAudio st ([] : List ℚ)
        else appendAudio st ([] : List ℚ)) (-((0 : ℕ) : ℤ)) := rfl
  rw [h1, if_neg (Nat.not_lt_zero _)]
  show pySliceFrom (appendAudio st ([] : List ℚ)) 0 = a
  rw [pySliceFrom_zero]
  simp [appendAudio, hA]

/-- C1 (amended: each call must have a positive total window
`inputSize + crossfadeSize + solaSearchFrame + extra_frame`; a call whose
chunk and margins are all empty computes `convertSize = 0` and leaves the
buffers untrimmed — see the counterexample):
for every sequence of appended chunks of arbitrary (positive-window)
lengths, after each call to generate_input the audio buffer has length
exactly `convertSize` and the feature buffer exactly `convertSize / 160`
rows, and when the model uses pitch the pitch buffer also has
`convertSize / 160` entries. -/
theorem buffers_track_convertSize (st0 : RVCState) (cs : List GenCall)
    (h0 : st0.audio_buffer = none) (hall : ∀ c ∈ cs, 0 < callSize c)
    (k : ℕ) (hk : k < cs.length) :
    ∃ a f, (runGen (cs.take (k + 1)) st0).audio_buffer = some a ∧
      (runGen (cs.take (k + 1)) st0).feature_buffer = some f ∧
      a.length = convertSizeOf (cs.get ⟨k, hk⟩).newData.length
        (cs.get ⟨k, hk⟩).crossfadeSize (cs.get ⟨k, hk⟩).solaSearchFrame
        (cs.get ⟨k, hk⟩).extra ∧
      f.length = convertSizeOf (cs.get ⟨k, hk⟩).newData.length
        (cs.get ⟨k, hk⟩).crossfadeSize (cs.get ⟨k, hk⟩).solaSearchFrame
        (cs.get ⟨k, hk⟩).extra / 160 ∧
      (st0.slotInfo.f0 = true →
        ∃ p, (runGen (cs.take (k + 1)) st0).pitchf_buffer = some p ∧
          p.length = convertSizeOf (cs.get ⟨k, hk⟩).newData.length
            (cs.get ⟨k, hk⟩).crossfadeSize (cs.get ⟨k, hk⟩).solaSearchFrame
            (cs.get ⟨k, hk⟩).extra / 160) := by
  have hInv0 : BufInv st0 := by
    intro a ha
    rw [h0] at ha
    cases ha
  have htake : runGen (cs.take (k + 1)) st0 =
      applyGen (cs.get ⟨k, hk⟩) (runGen (cs.take k) st0) := by
    rw [List.take_succ, List.getElem?_eq_getElem hk, runGen, List.foldl_append]
    rfl
  have hInvk : BufInv (runGen (cs.take k) st0) :=
    runGen_bufInv _ _ hInv0 (fun c hc => hall c (List.mem_of_mem_take hc))
  have hposk : 0 < callSize (cs.get ⟨k, hk⟩) := hall _ (List.get_mem cs k hk)
  have hslot : (runGen (cs.take k) st0).slotInfo = st0.slotInfo := runGen_slotInfo _ _
  set stk := runGen (cs.take k) st0 with hstk
  obtain ⟨f, hf, hflen⟩ := generate_input_feature_length (cs.get ⟨k, hk⟩).newData
    (cs.get ⟨k, hk⟩).crossfadeSize (cs.get ⟨k, hk⟩).solaSearchFrame
    (cs.get ⟨k, hk⟩).extra stk hInvk hposk
  refine ⟨(generate_input (cs.get ⟨k, hk⟩).newData (cs.get ⟨k, hk⟩).crossfadeSize
    (cs.get ⟨k, hk⟩).solaSearchFrame (cs.get ⟨k, hk⟩).extra stk).audio, f, ?_, ?_, ?_, ?_, ?_⟩
  · rw [htake]
    exact generate_input_audio_buffer _ _ _ _ _
  · rw [htake]
    rw [show applyGen (cs.get ⟨k, hk⟩) stk = (generate_input (cs.get ⟨k, hk⟩).newData
      (cs.get ⟨k, hk⟩).crossfadeSize (cs.get ⟨k, hk⟩).solaSearchFrame
      (cs.get ⟨k, hk⟩).extra stk).st from rfl]
    rw [generate_input_feature_buffer]
    exact hf
  · exact generate_input_audio_length _ _ _ _ _ hposk
  · exact hflen
  · intro hf0
    obtain ⟨p, hp, hplen⟩ := generate_input_pitchf_length (cs.get ⟨k, hk⟩).newData
      (cs.get ⟨k, hk⟩).crossfadeSize (cs.get ⟨k, hk⟩).solaSearchFrame
      (cs.get ⟨k, hk⟩).extra stk hInvk hposk (by rw [hslot]; exact hf0)
    refine ⟨p, ?_, hplen⟩
    rw [htake]
    rw [show applyGen (cs.get ⟨k, hk⟩) stk = (generate_input (cs.get ⟨k, hk⟩).newData
      (cs.get ⟨k, hk⟩).crossfadeSize (cs.get ⟨k, hk⟩).solaSearchFrame
      (cs.get ⟨k, hk⟩).extra stk).st from rfl]
    rw [generate_input_pitchf_buffer]
    exact hp

set_option maxRecDepth 8192 in
/-- Witness for C1: one 160-sample silent chunk from a fresh state — the
hypotheses hold and the buffers come out at 160 samples / 1 feature row /
1 pitch entry. -/
theorem buffers_track_convertSize_witness :
    ∃ a f, (runGen [(⟨List.replicate 160 (0 : ℚ), 0, 0, 0⟩ : GenCall)] freshState).audio_buffer = some a ∧
      (runGen [(⟨List.replicate 160 (0 : ℚ), 0, 0, 0⟩ : GenCall)] freshState).feature_buffer = some f ∧
      a.length = 160 ∧ f.length = 1 ∧
      (∃ p, (runGen [(⟨List.replicate 160 (0 : ℚ), 0, 0, 0⟩ : GenCall)] freshState).pitchf_buffer = some p ∧
        p.length = 1) := by
  have h := buffers_track_convertSize freshState
    [(⟨List.replicate 160 (0 : ℚ), 0, 0, 0⟩ : GenCall)] rfl
    (by
      intro c hc
      rw [List.mem_singleton] at hc
      subst hc
      show 0 < callSize ⟨List.replicate 160 (0 : ℚ), 0, 0, 0⟩
      norm_num [callSize])
    0 (by norm_num)
  obtain ⟨a, f, ha, hf, hal, hfl, hp⟩ := h
  obtain ⟨p, hpb, hpl⟩ := hp rfl
  refine ⟨a, f, ha, hf, ?_, ?_, ⟨p, hpb, ?_⟩⟩
  · rw [hal]
    norm_num [convertSizeOf]
  · rw [hfl]
    norm_num [convertSizeOf]
  · rw [hpl]
    norm_num [convertSizeOf]

/-- Counterexample to C1 as stated: with an empty chunk and all margins
zero after a one-sample first chunk, the second call computes
`convertSize = 0` but leaves the audio buffer at its previous 160 samples
(`audio_buffer[-0:]` is the whole buffer), so the buffer length is not
`convertSize` after that call. -/
theorem buffers_track_convertSize_cex :
    ∃ a, (runGen [(⟨[(0 : ℚ)], 0, 0, 0⟩ : GenCall), ⟨[], 0, 0, 0⟩] freshState).audio_buffer = some a ∧
      a.length = 160 ∧ convertSizeOf ([] : List ℚ).length 0 0 0 = 0 ∧
      a.length ≠ convertSizeOf ([] : List ℚ).length 0 0 0 := by
  have hrun : runGen [(⟨[(0 : ℚ)], 0, 0, 0⟩ : GenCall), ⟨[], 0, 0, 0⟩] freshState =
      applyGen ⟨[], 0, 0, 0⟩ (applyGen ⟨[(0 : ℚ)], 0, 0, 0⟩ freshState) := rfl
  have h1 : (applyGen (⟨[(0 : ℚ)], 0, 0, 0⟩ : GenCall) freshState).audio_buffer =
      some (generate_input [(0 : ℚ)] 0 0 0 freshState).audio :=
    generate_input_audio_buffer _ _ _ _ _
  have hlen1 : (generate_input [(0 : ℚ)] 0 0 0 freshState).audio.length =
      convertSizeOf 1 0 0 0 :=
    generate_input_audio_length _ _ _ _ _ (by norm_num)
  have h2 : (generate_input ([] : List ℚ) 0 0 0
        (applyGen (⟨[(0 : ℚ)], 0, 0, 0⟩ : GenCall) freshState)).audio =
      (generate_input [(0 : ℚ)] 0 0 0 freshState).audio :=
    generate_input_empty_call _ _ h1
  refine ⟨(generate_input [(0 : ℚ)] 0 0 0 freshState).audio, ?_, ?_, by decide, ?_⟩
  · rw [hrun]
    rw [show applyGen (⟨[], 0, 0, 0⟩ : GenCall)
        (applyGen (⟨[(0 : ℚ)], 0, 0, 0⟩ : GenCall) freshState) =
      (generate_input ([] : List ℚ) 0 0 0
        (applyGen (⟨[(0 : ℚ)], 0, 0, 0⟩ : GenCall) freshState)).st from rfl]
    rw [generate_input_audio_buffer, h2]
  · rw [hlen1]
    decide
  · rw [hlen1]
    decide

/-- C3: for every chunk and every crossfade / SOLA-search / extra-context
length (zeros included), the `convertSize` computed by generate_input is
the sum of the four lengths rounded up to the next multiple of 160; hence
it is a multiple of 160 and at least the sum. -/
theorem convertSize_roundup_spec (nd : List ℚ) (b c d : ℕ) (st : RVCState) :
    (generate_input nd b c d st).convertSize =
      160 * ((nd.length + b + c + d + 159) / 160) ∧
    (generate_input nd b c d st).convertSize % 160 = 0 ∧
    nd.length + b + c + d ≤ (generate_input nd b c d st).convertSize := by
  rw [generate_input_convertSize]
  exact ⟨convertSizeOf_eq_roundup _ _ _ _, convertSizeOf_mod _ _ _ _,
    le_convertSizeOf _ _ _ _⟩

/-- C4 (amended: Python `int(...)` truncates, so `outSize` is the floor —
not the round-to-nearest the claim states; see the counterexample): the
`outSize` computed by generate_input is
`⌊(convertSize - extra_frame) / 16000 * modelSampleRate⌋`, equivalently
the integer division `(convertSize - extra_frame) * rate / 16000`. -/
theorem outSize_is_floor (nd : List ℚ) (b c d : ℕ) (st : RVCState) :
    (generate_input nd b c d st).outSize =
      ((generate_input nd b c d st).convertSize - d) * st.slotInfo.samplingRate / 16000 ∧
    (generate_input nd b c d st).outSize =
      ⌊((((generate_input nd b c d st).convertSize : ℚ) - (d : ℚ)) / 16000) *
        (st.slotInfo.samplingRate : ℚ)⌋₊ := by
  rw [generate_input_outSize, generate_input_convertSize]
  have hle : d ≤ convertSizeOf nd.length b c d :=
    le_trans (by omega) (le_convertSizeOf nd.length b c d)
  exact ⟨outSizeOf_eq_div _ _ _ hle, outSizeOf_eq_floor _ _ _ hle⟩

/-- Counterexample to C4 as stated: a 7-sample chunk with 153 samples of
extra context on a 4000 Hz model gives `convertSize = 160` and
`(convertSize - extra) / 16000 * rate = 1.75`; the code computes
`outSize = int(1.75) = 1`, while the claim's round-to-nearest gives `2`. -/
theorem outSize_round_cex :
    (generate_input (List.replicate 7 (0 : ℚ)) 0 0 153
      { freshState with slotInfo := { demoSlot with samplingRate := 4000 } }).outSize = 1 ∧
    round (((((generate_input (List.replicate 7 (0 : ℚ)) 0 0 153
      { freshState with slotInfo := { demoSlot with samplingRate := 4000 } }).convertSize : ℚ) -
        (153 : ℚ)) / 16000) * 4000) = 2 ∧
    (1 : ℤ) ≠ 2 := by
  have hconv : (generate_input (List.replicate 7 (0 : ℚ)) 0 0 153
      { freshState with slotInfo := { demoSlot with samplingRate := 4000 } }).convertSize = 160 := by
    rw [generate_input_convertSize]
    simp [convertSizeOf]
  refine ⟨?_, ?_, by norm_num⟩
  · rw [generate_input_outSize]
    have h1 : convertSizeOf (List.replicate 7 (0 : ℚ)).length 0 0 153 = 160 := by
      simp [convertSizeOf]
    rw [h1]
    have h2 : ({ freshState with slotInfo := { demoSlot with samplingRate := 4000 } } :
        RVCState).slotInfo.samplingRate = 4000 := rfl
    rw [h2, outSizeOf_eq_div 160 153 4000 (by norm_num)]
  · rw [hconv]
    push_cast
    have h74 : ((160 : ℚ) - 153) / 16000 * 4000 = 7 / 4 := by norm_num
    rw [h74, round_eq]
    have h94 : (7 : ℚ) / 4 + 1 / 2 = 9 / 4 := by norm_num
    rw [h94, Int.floor_eq_iff] <;> norm_num

/-- C5 (amended: the code's RMS crop is
`audio[-(inputSize+crossfadeSize):-crossfadeSize]` — a window of
`inputSize` (chunk-length) samples ending `crossfadeSize` before the end
of the audio window, covering the crossfade margin preceding the new
chunk and all but the chunk's last `crossfadeSize` samples; it is not the
claim's window of `chunkLen + crossfadeLen` samples ending at the end —
see the counterexample):
`vol = max(rms(crop), prevVol * 0)`, that crop has exactly `inputSize`
samples (for `crossfadeSize ≥ 1`), and the silent branch's test is
equivalent to `vol < threshold` for every threshold. -/
theorem gate_volume_spec (nd : List ℚ) (cf so ex : ℕ) (st : RVCState)
    (hcf : 1 ≤ cf) :
    Real.sqrt ((generate_input nd cf so ex st).volSq : ℝ) =
      max (Real.sqrt ((meanSq (pySlice (generate_input nd cf so ex st).audio
          (-((nd.length : ℤ) + (cf : ℤ))) (-(cf : ℤ))) : ℚ) : ℝ))
        (Real.sqrt (st.prevVolSq : ℝ) * 0) ∧
    (pySlice (generate_input nd cf so ex st).audio
        (-((nd.length : ℤ) + (cf : ℤ))) (-(cf : ℤ))).length = nd.length ∧
    (∀ t : ℚ, gateSilent (generate_input nd cf so ex st).volSq t = true ↔
      Real.sqrt ((generate_input nd cf so ex st).volSq : ℝ) < (t : ℝ)) := by
  refine ⟨?_, ?_, fun t => gateSilent_iff_sqrt _ t⟩
  · rw [generate_input_volSq, mul_zero, max_eq_left (meanSq_nonneg _), mul_zero,
      max_eq_left (Real.sqrt_nonneg _)]
  · have hlen := generate_input_audio_length nd cf so ex st (by omega)
    have hC := le_convertSizeOf nd.length cf so ex
    unfold pySlice
    rw [show -((nd.length : ℤ) + (cf : ℤ)) = -(((nd.length + cf : ℕ)) : ℤ) by push_cast; ring]
    rw [pyIdx_neg _ _ (by omega), pyIdx_neg _ _ (by omega), List.length_drop,
      List.length_take, hlen]
    omega

/-- Witness for C5 at a one-sample chunk with a one-sample crossfade from
a fresh state. -/
theorem gate_volume_spec_witness :
    Real.sqrt ((generate_input [(0 : ℚ)] 1 0 0 freshState).volSq : ℝ) =
      max (Real.sqrt ((meanSq (pySlice (generate_input [(0 : ℚ)] 1 0 0 freshState).audio
          (-((([(0 : ℚ)] : List ℚ).length : ℤ) + (1 : ℤ))) (-(1 : ℤ))) : ℚ) : ℝ))
        (Real.sqrt (freshState.prevVolSq : ℝ) * 0) ∧
    (pySlice (generate_input [(0 : ℚ)] 1 0 0 freshState).audio
        (-((([(0 : ℚ)] : List ℚ).length : ℤ) + (1 : ℤ))) (-(1 : ℤ))).length =
      ([(0 : ℚ)] : List ℚ).length ∧
    (∀ t : ℚ, gateSilent (generate_input [(0 : ℚ)] 1 0 0 freshState).volSq t = true ↔
      Real.sqrt ((generate_input [(0 : ℚ)] 1 0 0 freshState).volSq : ℝ) < (t : ℝ)) :=
  gate_volume_spec [(0 : ℚ)] 1 0 0 freshState (by norm_num)

set_option maxRecDepth 8192 in
/-- The audio window produced by the counterexample call: one 16384-
valued sample (normalised to 1/2) behind 159 zeros of warm-up padding. -/
lemma cex_audio :
    (generate_input [(16384 : ℚ)] 1 0 0 freshState).audio =
      List.replicate 159 (0 : ℚ) ++ [1/2] := by
  have h1 : (generate_input [(16384 : ℚ)] 1 0 0 freshState).audio =
      pySliceFrom
        (if (appendAudio freshState ([(16384 : ℚ)].map (fun x => x / 32768))).length < 160 then
          List.replicate 160 (0 : ℚ) ++
            appendAudio freshState ([(16384 : ℚ)].map (fun x => x / 32768))
        else appendAudio freshState ([(16384 : ℚ)].map (fun x => x / 32768)))
        (-((160 : ℕ) : ℤ)) := rfl
  have hmap : ([(16384 : ℚ)].map (fun x => x / 32768)) = [(1/2 : ℚ)] := by norm_num
  rw [h1, hmap]
  rw [show appendAudio freshState [(1/2 : ℚ)] = [(1/2 : ℚ)] from rfl]
  rw [if_pos (by norm_num)]
  unfold pySliceFrom
  rw [pyIdx_neg _ _ (by norm_num)]
  simp only [List.length_append, List.length_replicate, List.length_cons, List.length_nil]
  norm_num

/-- Counterexample to C5 as stated: a one-sample chunk (normalised value
1/2) with `crossfadeSize = 1`.  The code's crop is the single zero sample
just before the chunk, so `vol = 0`; the claim's window — the last
`chunkLen + crossfadeLen = 2` samples of the audio window — contains the
1/2 sample and has a strictly positive RMS, so the claimed equation fails. -/
theorem gate_window_cex :
    Real.sqrt ((generate_input [(16384 : ℚ)] 1 0 0 freshState).volSq : ℝ) ≠
      max (Real.sqrt ((meanSq (takeLast 2
          (generate_input [(16384 : ℚ)] 1 0 0 freshState).audio) : ℚ) : ℝ))
        (Real.sqrt (freshState.prevVolSq : ℝ) * 0) := by
  have hvol : (generate_input [(16384 : ℚ)] 1 0 0 freshState).volSq = 0 := by
    rw [generate_input_volSq, cex_audio]
    have hcrop : pySlice (List.replicate 159 (0 : ℚ) ++ [1/2])
        (-((([(16384 : ℚ)] : List ℚ).length : ℤ) + ((1 : ℕ) : ℤ))) (-((1 : ℕ) : ℤ)) =
        [(0 : ℚ)] := by
      unfold pySlice
      rw [show -((([(16384 : ℚ)] : List ℚ).length : ℤ) + ((1 : ℕ) : ℤ)) =
        -(((2 : ℕ)) : ℤ) by norm_num]
      rw [pyIdx_neg _ _ (by norm_num), pyIdx_neg _ _ (by norm_num)]
      simp only [List.length_append, List.length_replicate, List.length_cons,
        List.length_nil]
      norm_num
    rw [hcrop]
    have hms : meanSq [(0 : ℚ)] = 0 := by norm_num [meanSq]
    rw [hms, show freshState.prevVolSq = 0 from rfl]
    norm_num
  have htl : takeLast 2 (generate_input [(16384 : ℚ)] 1 0 0 freshState).audio =
      [(0 : ℚ), 1/2] := by
    rw [cex_audio]
    unfold takeLast
    simp only [List.length_append, List.length_replicate, List.length_cons,
      List.length_nil]
    norm_num
    rw [List.drop_append_of_le_length (by simp), List.drop_replicate]
    rfl
  rw [hvol, htl]
  have hms2 : meanSq [(0 : ℚ), 1/2] = 1/8 := by norm_num [meanSq]
  rw [hms2, show ((0 : ℚ) : ℝ) = (0 : ℝ) by norm_num, Real.sqrt_zero,
    show freshState.prevVolSq = 0 from rfl, show ((0 : ℚ) : ℝ) = (0 : ℝ) by norm_num,
    Real.sqrt_zero, zero_mul, max_eq_left (Real.sqrt_nonneg _)]
  intro h
  have hne : Real.sqrt ((1/8 : ℚ) : ℝ) ≠ 0 := by
    rw [Real.sqrt_ne_zero']
    push_cast
    norm_num
  exact hne h.symm

/-- C7: createPipeline raises `PipelineCreateException` when loading the
inferencer fails or (loading having succeeded) when loading the embedder
fails, each wrapping the code's message for that stage; a missing index
file or a failing `faiss.read_index` is not an error — assembly succeeds
and the handle carries `index = none` (index blending skipped downstream). -/
theorem createPipeline_error_contract :
    (∀ (e : String) emb pex ie iif rr dev half sr,
      createPipeline (.error e) emb pex ie iif rr dev half sr =
        .error ⟨"[Voice Changer] exception! loading inferencer"⟩) ∧
    (∀ (i : ℕ) (e2 : String) pex ie iif rr dev half sr,
      createPipeline (.ok i) (.error e2) pex ie iif rr dev half sr =
        .error ⟨"[Voice Changer] exception! loading embedder"⟩) ∧
    (∀ (i em : ℕ) pex ie iif rr dev half sr,
      createPipeline (.ok i) (.ok em) pex ie iif rr dev half sr =
        .ok ⟨em, i, pex, loadIndex ie iif rr, sr, dev, half⟩) ∧
    (∀ iif rr, loadIndex false iif rr = none) ∧
    (∀ (e : String), loadIndex true true (.error e) = none) ∧
    (∀ (i em : ℕ) pex rr dev half sr,
      createPipeline (.ok i) (.ok em) pex false false rr dev half sr =
        .ok ⟨em, i, pex, none, sr, dev, half⟩) :=
  ⟨fun _ _ _ _ _ _ _ _ _ => rfl, fun _ _ _ _ _ _ _ _ _ => rfl,
    fun _ _ _ _ _ _ _ _ _ => rfl, fun _ _ => rfl, fun _ => rfl,
    fun _ _ _ _ _ _ _ => rfl⟩

/-- C8 (amended: a `gpu` change does trigger reassembly — force-tensor is
cleared and initialize re-runs createPipeline, installing a fresh handle
when assembly succeeds; but an `f0Detector` change does NOT reassemble:
it swaps the pitch extractor on the existing pipeline object in place
(RVCr2.py line 99 `self.pipeline.setPitchExtractor(...)`) — see the
counterexample; the remaining recognized keys only update the stored
setting). -/
theorem update_settings_reassembly (st : RVCState) :
    (∀ (v : SettingVal) n (p2 : Pipeline), pyToInt v = some n →
      update_settings (.ok p2) "gpu" v st =
        .ok (true, initializeModel (.ok p2)
          { st with settings := { st.settings with gpu := n }, forceTensor := false }) ∧
      (initializeModel (.ok p2)
        { st with settings := { st.settings with gpu := n }, forceTensor := false }).pipeline =
          some p2 ∧
      (initializeModel (.ok p2)
        { st with settings := { st.settings with gpu := n }, forceTensor := false }).pipelineGen =
          st.pipelineGen + 1 ∧
      (initializeModel (.ok p2)
        { st with settings := { st.settings with gpu := n }, forceTensor := false }).forceTensor =
          false) ∧
    (∀ (s : String) (p : Pipeline) cr, st.pipeline = some p →
      update_settings cr "f0Detector" (.s s) st =
        .ok (true, { st with
          settings := { st.settings with f0Detector := s }
          pipeline := some { p with pitchExtractor := s } }) ∧
      ({ st with
          settings := { st.settings with f0Detector := s }
          pipeline := some { p with pitchExtractor := s } } : RVCState).pipelineGen =
        st.pipelineGen) ∧
    (∀ (v : SettingVal) q key cr, key ∈ floatData → pyToFloat v = some q →
      ∃ st2, update_settings cr key v st = .ok (true, st2) ∧
        st2.pipeline = st.pipeline ∧ st2.pipelineGen = st.pipelineGen ∧
        st2.audio_buffer = st.audio_buffer) ∧
    (∀ (v : SettingVal) n key cr, key ∈ intData → key ≠ "gpu" → pyToInt v = some n →
      ∃ st2, update_settings cr key v st = .ok (true, st2) ∧
        st2.pipeline = st.pipeline ∧ st2.pipelineGen = st.pipelineGen ∧
        st2.audio_buffer = st.audio_buffer) := by
  refine ⟨?_, ?_, ?_, ?_⟩
  · intro v n p2 hv
    refine ⟨?_, rfl, rfl, rfl⟩
    unfold update_settings
    rw [hv]
    rfl
  · intro s p cr hp
    refine ⟨?_, rfl⟩
    unfold update_settings
    rw [hp]
    rfl
  · intro v q key cr hkey hv
    have hk : key = "indexRatio" ∨ key = "protect" ∨ key = "silentThreshold" ∨
        key = "extraConvertSize" := by
      simpa [floatData] using hkey
    rcases hk with rfl | rfl | rfl | rfl
    · refine ⟨{ st with settings := { st.settings with indexRatio := q } }, ?_, rfl, rfl, rfl⟩
      unfold update_settings
      rw [hv]
      rfl
    · refine ⟨{ st with settings := { st.settings with protect := q } }, ?_, rfl, rfl, rfl⟩
      unfold update_settings
      rw [hv]
      rfl
    · refine ⟨{ st with settings := { st.settings with silentThreshold := q } }, ?_, rfl, rfl, rfl⟩
      unfold update_settings
      rw [hv]
      rfl
    · refine ⟨{ st with settings := { st.settings with extraConvertSize := q } }, ?_, rfl, rfl, rfl⟩
      unfold update_settings
      rw [hv]
      rfl
  · intro v n key cr hkey hne hv
    have hk : key = "tran" ∨ key = "rvcQuality" := by
      have h3 : key = "gpu" ∨ key = "tran" ∨ key = "rvcQuality" := by
        simpa [intData] using hkey
      rcases h3 with h | h | h
      · exact absurd h hne
      · exact Or.inl h
      · exact Or.inr h
    rcases hk with rfl | rfl
    · refine ⟨{ st with settings := { st.settings with tran := n } }, ?_, rfl, rfl, rfl⟩
      unfold update_settings
      rw [hv]
      rfl
    · refine ⟨{ st with settings := { st.settings with rvcQuality := n } }, ?_, rfl, rfl, rfl⟩
      unfold update_settings
      rw [hv]
      rfl

/-- A concrete assembled pipeline for the configuration scenarios. -/
def demoPipe : Pipeline := ⟨1, 2, "harvest", none, 40000, 0, false⟩

/-- A state holding an assembled pipeline (generation 5). -/
def pipeState : RVCState :=
  { freshState with pipeline := some demoPipe, pipelineGen := 5 }

/-- Witness for C8: on `pipeState`, a `gpu` update rebuilds through
initialize and an `f0Detector` update swaps the extractor in place. -/
theorem update_settings_reassembly_witness :
    update_settings (.ok demoPipe) "gpu" (.i 3) pipeState =
      .ok (true, initializeModel (.ok demoPipe)
        { pipeState with settings := { pipeState.settings with gpu := 3 }, forceTensor := false }) ∧
    update_settings (.ok demoPipe) "f0Detector" (.s "crepe") pipeState =
      .ok (true, { pipeState with
        settings := { pipeState.settings with f0Detector := "crepe" }
        pipeline := some { demoPipe with pitchExtractor := "crepe" } }) := by
  refine ⟨((update_settings_reassembly pipeState).1 (.i 3) 3 demoPipe rfl).1, ?_⟩
  exact ((update_settings_reassembly pipeState).2.1 "crepe" demoPipe (.ok demoPipe) rfl).1

/-- Counterexample to C8 as stated: an `f0Detector` update on a live
pipeline (generation 5) returns with the SAME generation and the same
pipeline object mutated in place (`pitchExtractor` swapped) — even when a
fresh pipeline is available from assembly, it is not installed.  The
handle is mutated, not rebuilt. -/
theorem update_settings_f0_inplace_cex :
    update_settings (.ok ⟨9, 9, "fresh", none, 48000, 1, true⟩) "f0Detector" (.s "crepe")
        pipeState =
      .ok (true, { pipeState with
        settings := { pipeState.settings with f0Detector := "crepe" }
        pipeline := some { demoPipe with pitchExtractor := "crepe" } }) ∧
    ({ pipeState with
        settings := { pipeState.settings with f0Detector := "crepe" }
        pipeline := some { demoPipe with pitchExtractor := "crepe" } } : RVCState).pipelineGen =
      pipeState.pipelineGen ∧
    some { demoPipe with pitchExtractor := "crepe" } ≠
      some (⟨9, 9, "fresh", none, 48000, 1, true⟩ : Pipeline) := by
  refine ⟨?_, rfl, by decide⟩
  unfold update_settings
  rfl

/-- C9 (amended: `int(val)` / `float(val)` raise `ValueError` on a
non-numeric string value, so "never raises" holds only for convertible
values — see the counterexample; an unrecognized key is rejected by
returning `False` with the state untouched, and a recognized key with a
convertible value returns `True`). -/
theorem update_settings_bool_contract (st : RVCState)
    (cr : Except PipelineCreateException Pipeline) :
    (∀ key (v : SettingVal), key ∉ intData → key ∉ floatData → key ∉ strData →
      update_settings cr key v st = .ok (false, st)) ∧
    (∀ key (v : SettingVal) n, key ∈ intData → pyToInt v = some n →
      ∃ st2, update_settings cr key v st = .ok (true, st2)) ∧
    (∀ key (v : SettingVal) q, key ∈ floatData → pyToFloat v = some q →
      ∃ st2, update_settings cr key v st = .ok (true, st2)) ∧
    (∀ key (v : SettingVal), key ∈ strData →
      ∃ st2, update_settings cr key v st = .ok (true, st2)) := by
  refine ⟨?_, ?_, ?_, ?_⟩
  · intro key v h1 h2 h3
    unfold update_settings
    rw [if_neg h1, if_neg h2, if_neg h3]
  · intro key v n hkey hv
    have hk : key = "gpu" ∨ key = "tran" ∨ key = "rvcQuality" := by
      simpa [intData] using hkey
    rcases hk with rfl | rfl | rfl
    · refine ⟨initializeModel cr
        { st with settings := { st.settings with gpu := n }, forceTensor := false }, ?_⟩
      unfold update_settings
      rw [hv]
      rfl
    · refine ⟨{ st with settings := { st.settings with tran := n } }, ?_⟩
      unfold update_settings
      rw [hv]
      rfl
    · refine ⟨{ st with settings := { st.settings with rvcQuality := n } }, ?_⟩
      unfold update_settings
      rw [hv]
      rfl
  · intro key v q hkey hv
    have hk : key = "indexRatio" ∨ key = "protect" ∨ key = "silentThreshold" ∨
        key = "extraConvertSize" := by
      simpa [floatData] using hkey
    rcases hk with rfl | rfl | rfl | rfl
    · refine ⟨{ st with settings := { st.settings with indexRatio := q } }, ?_⟩
      unfold update_settings
      rw [hv]
      rfl
    · refine ⟨{ st with settings := { st.settings with protect := q } }, ?_⟩
      unfold update_settings
      rw [hv]
      rfl
    · refine ⟨{ st with settings := { st.settings with silentThreshold := q } }, ?_⟩
      unfold update_settings
      rw [hv]
      rfl
    · refine ⟨{ st with settings := { st.settings with extraConvertSize := q } }, ?_⟩
      unfold update_settings
      rw [hv]
      rfl
  · intro key v hkey
    have hk : key = "f0Detector" := by
      simpa [strData] using hkey
    subst hk
    rcases hp : st.pipeline with _ | p
    · refine ⟨{ st with settings := { st.settings with f0Detector := pyToStr v } }, ?_⟩
      unfold update_settings
      rw [hp]
      rfl
    · refine ⟨{ st with
        settings := { st.settings with f0Detector := pyToStr v }
        pipeline := some { p with pitchExtractor := pyToStr v } }, ?_⟩
      unfold update_settings
      rw [hp]
      rfl

/-- Witness for C9: an unrecognized key is rejected with `False` and no
state change; a recognized key with a convertible value returns `True`. -/
theorem update_settings_bool_contract_witness :
    update_settings (.error ⟨"e"⟩) "bogus" (.i 1) freshState = .ok (false, freshState) ∧
    ∃ st2, update_settings (.error ⟨"e"⟩) "tran" (.i 5) freshState = .ok (true, st2) := by
  refine ⟨(update_settings_bool_contract freshState (.error ⟨"e"⟩)).1 "bogus" (.i 1)
    (by decide) (by decide) (by decide), ?_⟩
  exact (update_settings_bool_contract freshState (.error ⟨"e"⟩)).2.1 "tran" (.i 5) 5
    (by decide) rfl

/-- Counterexample to C9 as stated: the recognized integer key `gpu` with
the string value "abc" makes `int(val)` raise `ValueError` — the call
raises instead of returning a boolean. -/
theorem update_settings_raises_cex :
    update_settings (.error ⟨"e"⟩) "gpu" (.s "abc") freshState = .error () := by
  unfold update_settings
  rfl

lemma gateSilent_zero (m : ℚ) : gateSilent m 0 = false := by
  unfold gateSilent
  rw [show (decide ((0 : ℚ) < 0)) = false by norm_num, Bool.false_and]

lemma inference_silent_eq (resample : List ℚ → ℕ → ℕ → List ℚ)
    (execResult : Except Unit (List ℚ × List ℚ × List (List ℚ)))
    (createResult : Except PipelineCreateException Pipeline)
    (st : RVCState) (rd : List ℚ) (cf so : ℕ) (p : Pipeline)
    (hp : st.pipeline = some p)
    (hsil : gateSilent (genOfInference resample st rd cf so).volSq
      st.settings.silentThreshold = true) :
    inference resample execResult createResult st rd cf so =
      .ok (some { volSqScale := (genOfInference resample st rd cf so).volSq
                  samples := List.replicate (genOfInference resample st rd cf so).convertSize 0 },
        (genOfInference resample st rd cf so).st) := by
  unfold inference
  rw [hp]
  simp only [hsil]
  rfl

lemma inference_error_eq (resample : List ℚ → ℕ → ℕ → List ℚ)
    (createResult : Except PipelineCreateException Pipeline)
    (st : RVCState) (rd : List ℚ) (cf so : ℕ) (p : Pipeline)
    (hp : st.pipeline = some p)
    (hsil : gateSilent (genOfInference resample st rd cf so).volSq
      st.settings.silentThreshold = false) :
    inference resample (.error ()) createResult st rd cf so =
      .ok (none, initializeModel createResult
        { (genOfInference resample st rd cf so).st with forceTensor := true }) := by
  unfold inference
  rw [hp]
  simp only [hsil]
  rfl

lemma inference_ok_eq (resample : List ℚ → ℕ → ℕ → List ℚ)
    (createResult : Except PipelineCreateException Pipeline)
    (st : RVCState) (rd : List ℚ) (cf so : ℕ) (p : Pipeline)
    (audio_out pitchfTail : List ℚ) (featureTail : List (List ℚ))
    (hp : st.pipeline = some p)
    (hsil : gateSilent (genOfInference resample st rd cf so).volSq
      st.settings.silentThreshold = false) :
    inference resample (.ok (audio_out, pitchfTail, featureTail)) createResult st rd cf so =
      .ok (some { volSqScale := (genOfInference resample st rd cf so).volSq
                  samples := resample
                    (pySliceFrom audio_out (-((genOfInference resample st rd cf so).outSize : ℤ)))
                    st.slotInfo.samplingRate st.outputSampleRate },
        { (genOfInference resample st rd cf so).st with
          pitchf_buffer := some pitchfTail
          feature_buffer := some featureTail }) := by
  unfold inference
  rw [hp]
  simp only [hsil]
  rfl

/-- C2 (amended: the gated-silent branch returns
`np.zeros(convertSize).astype(np.int16) * np.sqrt(vol)` — a chunk of
exactly `convertSize` samples in the 16 kHz processing domain, every
sample exactly zero; it is NOT resampled to the caller's output rate and
its length is `convertSize`, not the claim's resampled `outSize` — see
the counterexample): whenever the gate volume is below the threshold,
inference returns a chunk of exactly `convertSize` samples, all zero
(zero times the `sqrt(vol)` scale), never `none`, and the chunk is
nonempty whenever the resampled input carries any samples. -/
theorem silent_gate_output (resample : List ℚ → ℕ → ℕ → List ℚ)
    (execResult : Except Unit (List ℚ × List ℚ × List (List ℚ)))
    (createResult : Except PipelineCreateException Pipeline)
    (st : RVCState) (rd : List ℚ) (cf so : ℕ) (p : Pipeline)
    (hp : st.pipeline = some p)
    (hsil : gateSilent (genOfInference resample st rd cf so).volSq
      st.settings.silentThreshold = true) :
    ∃ out, inference resample execResult createResult st rd cf so =
        .ok (some out, (genOfInference resample st rd cf so).st) ∧
      out.samples.length = (genOfInference resample st rd cf so).convertSize ∧
      (∀ x ∈ out.samples, x = 0) ∧
      (0 < (resample rd st.inputSampleRate 16000).length →
        0 < (genOfInference resample st rd cf so).convertSize) := by
  refine ⟨_, inference_silent_eq resample execResult createResult st rd cf so p hp hsil,
    List.length_replicate _ _, ?_, ?_⟩
  · intro x hx
    exact (List.eq_of_mem_replicate hx)
  · intro hlen
    have h1 : (genOfInference resample st rd cf so).convertSize =
        convertSizeOf (resample rd st.inputSampleRate 16000).length
          (cf * 16000 / st.inputSampleRate) (so * 16000 / st.inputSampleRate)
          ((pyIntQ ((st.settings.extraConvertSize / (st.inputSampleRate : ℚ)) * 16000)).toNat) :=
      generate_input_convertSize _ _ _ _ _
    rw [h1]
    refine convertSizeOf_pos _ _ _ _ (Nat.lt_of_lt_of_le hlen ?_)
    exact le_trans (Nat.le_add_right _ _)
      (le_trans (Nat.le_add_right _ _) (Nat.le_add_right _ _))

/-- A state with a live pipeline and a positive (1/2) silence threshold. -/
def silentState : RVCState :=
  { pipeState with settings := { pipeState.settings with silentThreshold := 1/2 } }

lemma genOf_silent_eq :
    genOfInference (fun l _ _ => l) silentState (List.replicate 160 (0 : ℚ)) 160 0 =
      generate_input (List.replicate 160 (0 : ℚ)) 160 0 0 silentState := by
  unfold genOfInference
  have hextra : (pyIntQ ((silentState.settings.extraConvertSize /
      (silentState.inputSampleRate : ℚ)) * 16000)).toNat = 0 := by
    rw [show silentState.settings.extraConvertSize = 0 from rfl, zero_div, zero_mul]
    rfl
  rw [hextra]
  rfl

set_option maxRecDepth 8192 in
/-- The audio window of the silent demo call: 320 zeros. -/
lemma silent_audio :
    (generate_input (List.replicate 160 (0 : ℚ)) 160 0 0 silentState).audio =
      List.replicate 320 (0 : ℚ) := by
  have h1 : (generate_input (List.replicate 160 (0 : ℚ)) 160 0 0 silentState).audio =
      pySliceFrom
        (if (appendAudio silentState ((List.replicate 160 (0 : ℚ)).map (fun x => x / 32768))).length < 320 then
          List.replicate 320 (0 : ℚ) ++
            appendAudio silentState ((List.replicate 160 (0 : ℚ)).map (fun x => x / 32768))
        else appendAudio silentState ((List.replicate 160 (0 : ℚ)).map (fun x => x / 32768)))
        (-((320 : ℕ) : ℤ)) := rfl
  have hmap : (List.replicate 160 (0 : ℚ)).map (fun x => x / 32768) =
      List.replicate 160 (0 : ℚ) := by
    rw [List.map_replicate]
    norm_num
  rw [h1, hmap,
    show appendAudio silentState (List.replicate 160 (0 : ℚ)) = List.replicate 160 (0 : ℚ)
      from rfl]
  rw [if_pos (by simp)]
  rw [show List.replicate 320 (0 : ℚ) ++ List.replicate 160 (0 : ℚ) =
    List.replicate 480 (0 : ℚ) by rw [← List.replicate_add]]
  unfold pySliceFrom
  rw [pyIdx_neg _ _ (by norm_num)]
  simp [List.drop_replicate]

lemma silent_volSq :
    (generate_input (List.replicate 160 (0 : ℚ)) 160 0 0 silentState).volSq = 0 := by
  rw [generate_input_volSq, silent_audio,
    show silentState.prevVolSq = 0 from rfl]
  unfold pySlice
  rw [List.take_replicate, List.drop_replicate, meanSq_replicate_zero]
  norm_num

lemma silent_gate_true :
    gateSilent (genOfInference (fun l _ _ => l) silentState
        (List.replicate 160 (0 : ℚ)) 160 0).volSq
      silentState.settings.silentThreshold = true := by
  rw [genOf_silent_eq, silent_volSq,
    show silentState.settings.silentThreshold = 1/2 from rfl]
  simp only [gateSilent, Bool.and_eq_true, decide_eq_true_eq]
  norm_num

/-- Witness for C2: a silent 160-sample chunk on `silentState` takes the
gated branch and yields a 320-sample all-zero chunk. -/
theorem silent_gate_output_witness :
    ∃ out, inference (fun l _ _ => l) (.ok ([], [], [])) (.error ⟨"e"⟩) silentState
        (List.replicate 160 (0 : ℚ)) 160 0 =
      .ok (some out, (genOfInference (fun l _ _ => l) silentState
        (List.replicate 160 (0 : ℚ)) 160 0).st) ∧
      out.samples.length = (genOfInference (fun l _ _ => l) silentState
        (List.replicate 160 (0 : ℚ)) 160 0).convertSize ∧
      (∀ x ∈ out.samples, x = 0) ∧
      (0 < (((fun (l : List ℚ) (_ _ : ℕ) => l) (List.replicate 160 (0 : ℚ))
          silentState.inputSampleRate 16000)).length →
        0 < (genOfInference (fun l _ _ => l) silentState
          (List.replicate 160 (0 : ℚ)) 160 0).convertSize) :=
  silent_gate_output (fun l _ _ => l) (.ok ([], [], [])) (.error ⟨"e"⟩) silentState
    (List.replicate 160 (0 : ℚ)) 160 0 demoPipe rfl silent_gate_true

set_option maxRecDepth 8192 in
/-- Counterexample to C2 as stated: the silent chunk above produces 320
samples (the 16 kHz `convertSize`), while the claim's expected length —
`outSize = 640` model-rate samples rescaled from the 32 kHz model rate to
the 48 kHz output rate — is `640 * 48000 / 32000 = 960` (the division is
exact, so every rounding convention agrees); `320 ≠ 960`, and no output
resampling happens on this branch at all. -/
theorem silent_gate_output_cex :
    inference (fun l _ _ => l) (.ok ([], [], [])) (.error ⟨"e"⟩) silentState
        (List.replicate 160 (0 : ℚ)) 160 0 =
      .ok (some { volSqScale := 0, samples := List.replicate 320 0 },
        (genOfInference (fun l _ _ => l) silentState (List.replicate 160 (0 : ℚ)) 160 0).st) ∧
    (List.replicate 320 (0 : ℚ)).length = 320 ∧
    (genOfInference (fun l _ _ => l) silentState
      (List.replicate 160 (0 : ℚ)) 160 0).outSize = 640 ∧
    silentState.slotInfo.samplingRate = 32000 ∧
    silentState.outputSampleRate = 48000 ∧
    640 * 48000 / 32000 = 960 ∧ (320 : ℕ) ≠ 960 := by
  refine ⟨?_, by simp, ?_, rfl, rfl, by norm_num, by norm_num⟩
  · rw [inference_silent_eq (fun l _ _ => l) (.ok ([], [], [])) (.error ⟨"e"⟩) silentState
      (List.replicate 160 (0 : ℚ)) 160 0 demoPipe rfl silent_gate_true]
    rw [genOf_silent_eq, silent_volSq]
    have hc : (generate_input (List.replicate 160 (0 : ℚ)) 160 0 0 silentState).convertSize =
        320 := by
      rw [generate_input_convertSize]
      simp [convertSizeOf]
    rw [hc]
  · rw [genOf_silent_eq, generate_input_outSize]
    have hc : convertSizeOf (List.replicate 160 (0 : ℚ)).length 160 0 0 = 320 := by
      simp [convertSizeOf]
    rw [hc, show silentState.slotInfo.samplingRate = 32000 from rfl,
      outSizeOf_eq_div 320 0 32000 (by norm_num)]

/-- C6: whenever the external pipeline's exec raises the
precision-unsupported condition during a (non-gated) inference call and
the rebuild's assembly succeeds, inference returns normally (`.ok`, no
exception to the caller) with no output chunk for exactly that call, the
device's force-full-precision flag is set, and a freshly built pipeline
handle is installed (generation bumped); any later call whose exec
succeeds produces an output chunk again. -/
theorem precision_fallback_recovery (resample : List ℚ → ℕ → ℕ → List ℚ)
    (createResult : Except PipelineCreateException Pipeline)
    (st : RVCState) (rd : List ℚ) (cf so : ℕ) (p p2 : Pipeline)
    (hp : st.pipeline = some p)
    (hsil : gateSilent (genOfInference resample st rd cf so).volSq
      st.settings.silentThreshold = false)
    (hcr : createResult = .ok p2) :
    inference resample (.error ()) createResult st rd cf so =
      .ok (none, initializeModel createResult
        { (genOfInference resample st rd cf so).st with forceTensor := true }) ∧
    (initializeModel createResult
      { (genOfInference resample st rd cf so).st with forceTensor := true }).forceTensor = true ∧
    (initializeModel createResult
      { (genOfInference resample st rd cf so).st with forceTensor := true }).pipeline = some p2 ∧
    (initializeModel createResult
      { (genOfInference resample st rd cf so).st with forceTensor := true }).pipelineGen =
      st.pipelineGen + 1 ∧
    (∀ (resample2 : List ℚ → ℕ → ℕ → List ℚ)
      (execOk : List ℚ × List ℚ × List (List ℚ)) createResult2
      (stB : RVCState) rdB cfB soB (pB : Pipeline), stB.pipeline = some pB →
      ∃ out stB2, inference resample2 (.ok execOk) createResult2 stB rdB cfB soB =
        .ok (some out, stB2)) := by
  subst hcr
  refine ⟨inference_error_eq resample _ st rd cf so p hp hsil, rfl, rfl, rfl, ?_⟩
  intro resample2 execOk createResult2 stB rdB cfB soB pB hpB
  obtain ⟨audio_out, pitchfTail, featureTail⟩ := execOk
  rcases hg : gateSilent (genOfInference resample2 stB rdB cfB soB).volSq
      stB.settings.silentThreshold with hfalse | htrue
  · exact ⟨_, _, inference_ok_eq resample2 createResult2 stB rdB cfB soB pB
      audio_out pitchfTail featureTail hpB hg⟩
  · exact ⟨_, _, inference_silent_eq resample2 (.ok (audio_out, pitchfTail, featureTail))
      createResult2 stB rdB cfB soB pB hpB hg⟩

/-- Witness for C6 on `pipeState` (threshold 0, so the gate never fires):
exec raising precision-unsupported yields `.ok (none, _)` with the flag
forced and a new handle of generation 6. -/
theorem precision_fallback_recovery_witness :
    inference (fun l _ _ => l) (.error ()) (.ok demoPipe) pipeState [] 0 0 =
      .ok (none, initializeModel (.ok demoPipe)
        { (genOfInference (fun l _ _ => l) pipeState [] 0 0).st with forceTensor := true }) ∧
    (initializeModel (.ok demoPipe)
      { (genOfInference (fun l _ _ => l) pipeState [] 0 0).st with
        forceTensor := true }).forceTensor = true ∧
    (initializeModel (.ok demoPipe)
      { (genOfInference (fun l _ _ => l) pipeState [] 0 0).st with
        forceTensor := true }).pipeline = some demoPipe ∧
    (initializeModel (.ok demoPipe)
      { (genOfInference (fun l _ _ => l) pipeState [] 0 0).st with
        forceTensor := true }).pipelineGen = pipeState.pipelineGen + 1 := by
  have h := precision_fallback_recovery (fun l _ _ => l) (.ok demoPipe) pipeState [] 0 0
    demoPipe demoPipe rfl
    (by rw [show pipeState.settings.silentThreshold = 0 from rfl]; exact gateSilent_zero _)
    rfl
  exact ⟨h.1, h.2.1, h.2.2.1, h.2.2.2.1⟩

/-- C10 (amended: besides the buffers — which keep exactly the values
generate_input produced for the call — the force-precision flag and the
rebuilt pipeline handle, the recovery path ALSO resets the `tran`,
`indexRatio` and `protect` settings to the slot defaults, because
initialize re-runs in full; see the counterexample): on the
precision-fallback path the pitch and feature buffers are not partially
committed — they are exactly generate_input's output for that call (the
zero-placeholder tails), the audio buffer and prevVol are likewise
generate_input's, and the remaining changes are exactly the force flag,
the new handle (generation + 1) and the three setting resets. -/
theorem fallback_frame_effect (resample : List ℚ → ℕ → ℕ → List ℚ)
    (createResult : Except PipelineCreateException Pipeline)
    (st : RVCState) (rd : List ℚ) (cf so : ℕ) (p p2 : Pipeline)
    (hp : st.pipeline = some p)
    (hsil : gateSilent (genOfInference resample st rd cf so).volSq
      st.settings.silentThreshold = false)
    (hcr : createResult = .ok p2) :
    ∃ st2, inference resample (.error ()) createResult st rd cf so = .ok (none, st2) ∧
      st2.pitchf_buffer = (genOfInference resample st rd cf so).pitchf ∧
      st2.feature_buffer = (genOfInference resample st rd cf so).feature ∧
      st2.audio_buffer = some (genOfInference resample st rd cf so).audio ∧
      st2.prevVolSq = (genOfInference resample st rd cf so).volSq ∧
      st2.forceTensor = true ∧
      st2.pipeline = some p2 ∧
      st2.pipelineGen = st.pipelineGen + 1 ∧
      st2.settings = { st.settings with
        tran := st.slotInfo.defaultTune
        indexRatio := st.slotInfo.defaultIndexRatio
        protect := st.slotInfo.defaultProtect } ∧
      st2.inputSampleRate = st.inputSampleRate ∧
      st2.outputSampleRate = st.outputSampleRate ∧
      st2.slotInfo = st.slotInfo := by
  subst hcr
  exact ⟨_, inference_error_eq resample _ st rd cf so p hp hsil,
    rfl, rfl, rfl, rfl, rfl, rfl, rfl, rfl, rfl, rfl, rfl⟩

/-- A live-pipeline state whose pitch-shift setting was moved away from
the slot default. -/
def tranState : RVCState :=
  { pipeState with settings := { pipeState.settings with tran := 99 } }

/-- Witness for C10 on `pipeState`. -/
theorem fallback_frame_effect_witness :
    ∃ st2, inference (fun l _ _ => l) (.error ()) (.ok demoPipe) pipeState [] 0 0 =
        .ok (none, st2) ∧
      st2.pitchf_buffer = (genOfInference (fun l _ _ => l) pipeState [] 0 0).pitchf ∧
      st2.feature_buffer = (genOfInference (fun l _ _ => l) pipeState [] 0 0).feature ∧
      st2.audio_buffer = some (genOfInference (fun l _ _ => l) pipeState [] 0 0).audio ∧
      st2.prevVolSq = (genOfInference (fun l _ _ => l) pipeState [] 0 0).volSq ∧
      st2.forceTensor = true ∧
      st2.pipeline = some demoPipe ∧
      st2.pipelineGen = pipeState.pipelineGen + 1 ∧
      st2.settings = { pipeState.settings with
        tran := pipeState.slotInfo.defaultTune
        indexRatio := pipeState.slotInfo.defaultIndexRatio
        protect := pipeState.slotInfo.defaultProtect } ∧
      st2.inputSampleRate = pipeState.inputSampleRate ∧
      st2.outputSampleRate = pipeState.outputSampleRate ∧
      st2.slotInfo = pipeState.slotInfo :=
  fallback_frame_effect (fun l _ _ => l) (.ok demoPipe) pipeState [] 0 0 demoPipe demoPipe
    rfl (by rw [show pipeState.settings.silentThreshold = 0 from rfl]; exact gateSilent_zero _)
    rfl

/-- Counterexample to C10 as stated: from a state whose `tran` is 99, the
recovery path returns a state whose `tran` is the slot default 0 — a
setting changed even though the claim allows only the force-precision
flag and the pipeline handle to change. -/
theorem fallback_frame_cex :
    ∃ st2, inference (fun l _ _ => l) (.error ()) (.ok demoPipe) tranState [] 0 0 =
        .ok (none, st2) ∧
      tranState.settings.tran = 99 ∧ st2.settings.tran = 0 ∧
      st2.settings.tran ≠ tranState.settings.tran := by
  refine ⟨_, inference_error_eq (fun l _ _ => l) (.ok demoPipe) tranState [] 0 0 demoPipe rfl
    (by rw [show tranState.settings.silentThreshold = 0 from rfl]; exact gateSilent_zero _),
    rfl, rfl, by decide⟩
